import Mathlib

/-!
Shallow embedding of the cernunnos-cpp compiler front end
(`src/tokenizer.cpp` and `src/parser.hpp`): lexical analysis,
recursive-descent parsing with precedence climbing, AST construction and
type tagging.  The token model is the richer, parser-compatible token set
(the one produced by `src/tokenizer.cpp` and consumed by `src/parser.hpp`).
Fatal `exit`-style diagnostics are modelled as `Except` errors carrying the
exact diagnostic content; the process exits before producing any output, so
an `Except.error` result models "no token sequence / no Program produced".
-/

/-- ASCII character class, mirroring C `isalpha` in the default locale. -/
def c_isalpha (c : Char) : Bool :=
  ('A' ≤ c && c ≤ 'Z') || ('a' ≤ c && c ≤ 'z')

/-- ASCII character class, mirroring C `isdigit`. -/
def c_isdigit (c : Char) : Bool :=
  '0' ≤ c && c ≤ '9'

/-- ASCII character class, mirroring C `isalnum`. -/
def c_isalnum (c : Char) : Bool :=
  c_isalpha c || c_isdigit c

/-- ASCII character class, mirroring C `isspace`: space, \t, \n, \v, \f, \r. -/
def c_isspace (c : Char) : Bool :=
  c = ' ' || c = '\t' || c = '\n' || c = '\x0b' || c = '\x0c' || c = '\r'

/-- The single-quote character, written by code point to keep sources plain. -/
def quoteChar : Char := Char.ofNat 39

/-- The single-quote character as a one-character string. -/
def quoteStr : String := String.mk [quoteChar]

/-- Left curly brace character, written by code point. -/
def lcurlyChar : Char := Char.ofNat 123

/-- Right curly brace character, written by code point. -/
def rcurlyChar : Char := Char.ofNat 125

/-- Token kinds of the richer tokenizer (`src/tokenizer.cpp`), the set the
parser's grammar needs.  `LEFT_CURLY_BACKET` keeps the source's spelling. -/
inductive TokenType where
  | RETURN
  | VAR
  | FUNC
  | IDENTIFIER
  | TYPE_INT
  | TYPE_CHAR
  | INTEGER_LITERAL
  | CHAR_LITERAL
  | IF
  | ELIF
  | ELSE
  | EQUAL
  | COLON
  | COMMA
  | LEFT_PARENTHESIS
  | RIGHT_PARENTHESIS
  | LEFT_CURLY_BACKET
  | RIGHT_CURLY_BRACKET
  | PLUS
  | MINUS
  | STAR
  | SLASH
deriving DecidableEq

/-- A token: kind, source line, optional literal payload (field order as in
the C++ designated initializers `.type`, `.line`, `.val`). -/
structure Token where
  type : TokenType
  line : Nat
  val : Option String := none
deriving DecidableEq

/-- `to_string(TokenType)` from `src/tokenizer.cpp`. -/
def TokenType.to_string : TokenType → String
  | .RETURN => "return value"
  | .VAR => "var"
  | .FUNC => "func"
  | .IDENTIFIER => "identifier"
  | .TYPE_INT => "int"
  | .TYPE_CHAR => "char"
  | .INTEGER_LITERAL => "integer literal"
  | .CHAR_LITERAL => "char literal"
  | .IF => "if"
  | .ELIF => "elif"
  | .ELSE => "else"
  | .EQUAL => "="
  | .COLON => ":"
  | .COMMA => ","
  | .LEFT_PARENTHESIS => "("
  | .RIGHT_PARENTHESIS => ")"
  | .LEFT_CURLY_BACKET => String.mk [lcurlyChar]
  | .RIGHT_CURLY_BRACKET => String.mk [rcurlyChar]
  | .PLUS => "+"
  | .MINUS => "-"
  | .STAR => "*"
  | .SLASH => "/"

/-- `bin_prec` from `src/tokenizer.cpp`: `+ -` at precedence 0, `* /` at 1,
no precedence for anything else. -/
def bin_prec : TokenType → Option Nat
  | .PLUS => some 0
  | .MINUS => some 0
  | .STAR => some 1
  | .SLASH => some 1
  | _ => none

/-- The inner scan of a `/* ... */` block comment: drop characters until the
two-character close marker `*/` (consuming it), or until end of input; this
is the loop plus the two guarded `consume()` calls in `tokenize`.  The
attached bound supports termination of the main scan loop. -/
def skipBlockComment : (l : List Char) → {r : List Char // r.length ≤ l.length}
  | [] => ⟨[], by simp⟩
  | [_] => ⟨[], by simp⟩
  | c :: d :: r =>
    if c = '*' && d = '/' then ⟨r, by simp only [List.length_cons]; omega⟩
    else
      let ⟨r2, h2⟩ := skipBlockComment (d :: r)
      ⟨r2, by simp only [List.length_cons] at h2 ⊢; omega⟩

/-- The scan loop of `Tokenizer::tokenize` (`src/tokenizer.cpp`), branch for
branch and in branch order, over the remaining characters and the current
`line_count`.  A fatal lexical error is the `Except.error` carrying the full
diagnostic text written to `std::cerr`. -/
def tokenizeLoop (l : List Char) (line_count : Nat) : Except String (List Token) :=
  match l with
  | [] => .ok []
  | c :: rest =>
    if c = '/' && rest.head? = some '/' then
      tokenizeLoop (rest.dropWhile (fun x => x ≠ '\n')) line_count
    else if c = '/' && rest.head? = some '*' then
      tokenizeLoop (skipBlockComment rest.tail).val line_count
    else if c_isalpha c then
      let buf := String.mk (c :: rest.takeWhile (fun x => c_isalnum x || x = '_'))
      let rest2 := rest.dropWhile (fun x => c_isalnum x || x = '_')
      let tok : Token :=
        if buf = "int" then ⟨.TYPE_INT, line_count, none⟩
        else if buf = "char" then ⟨.TYPE_CHAR, line_count, none⟩
        else if buf = "var" then ⟨.VAR, line_count, none⟩
        else if buf = "func" then ⟨.FUNC, line_count, none⟩
        else if buf = "return" then ⟨.RETURN, line_count, none⟩
        else if buf = "if" then ⟨.IF, line_count, none⟩
        else if buf = "elif" then ⟨.ELIF, line_count, none⟩
        else if buf = "else" then ⟨.ELSE, line_count, none⟩
        else ⟨.IDENTIFIER, line_count, some buf⟩
      (tokenizeLoop rest2 line_count).map (tok :: ·)
    else if c_isdigit c then
      let buf := String.mk (c :: rest.takeWhile c_isdigit)
      (tokenizeLoop (rest.dropWhile c_isdigit) line_count).map
        (⟨.INTEGER_LITERAL, line_count, some buf⟩ :: ·)
    else if c = '=' then
      (tokenizeLoop rest line_count).map (⟨.EQUAL, line_count, none⟩ :: ·)
    else if c = ':' then
      (tokenizeLoop rest line_count).map (⟨.COLON, line_count, none⟩ :: ·)
    else if c = ',' then
      (tokenizeLoop rest line_count).map (⟨.COMMA, line_count, none⟩ :: ·)
    else if c = '(' then
      (tokenizeLoop rest line_count).map (⟨.LEFT_PARENTHESIS, line_count, none⟩ :: ·)
    else if c = ')' then
      (tokenizeLoop rest line_count).map (⟨.RIGHT_PARENTHESIS, line_count, none⟩ :: ·)
    else if c = lcurlyChar then
      (tokenizeLoop rest line_count).map (⟨.LEFT_CURLY_BACKET, line_count, none⟩ :: ·)
    else if c = rcurlyChar then
      (tokenizeLoop rest line_count).map (⟨.RIGHT_CURLY_BRACKET, line_count, none⟩ :: ·)
    else if c = '+' then
      (tokenizeLoop rest line_count).map (⟨.PLUS, line_count, none⟩ :: ·)
    else if c = '-' then
      (tokenizeLoop rest line_count).map (⟨.MINUS, line_count, none⟩ :: ·)
    else if c = '*' then
      (tokenizeLoop rest line_count).map (⟨.STAR, line_count, none⟩ :: ·)
    else if c = '/' then
      (tokenizeLoop rest line_count).map (⟨.SLASH, line_count, none⟩ :: ·)
    else if c = quoteChar then
      match rest with
      | d :: rest2 =>
        if c_isalnum d then
          match rest2 with
          | e :: rest3 =>
            if e = quoteChar then
              (tokenizeLoop rest3 line_count).map
                (⟨.CHAR_LITERAL, line_count, some (String.mk [d])⟩ :: ·)
            else
              .error ("[Error] expected `" ++ quoteStr ++ "` on line " ++ toString line_count)
          | [] =>
            .error ("[Error] expected `" ++ quoteStr ++ "` on line " ++ toString line_count)
        else
          .error ("[Error] expected a valid char on line " ++ toString line_count)
      | [] =>
        .error ("[Error] expected a valid char on line " ++ toString line_count)
    else if c = '\n' then
      tokenizeLoop rest (line_count + 1)
    else if c_isspace c then
      tokenizeLoop rest line_count
    else
      .error ("[Error] invalid token `" ++ String.mk [c] ++ "` on line " ++ toString line_count)
termination_by l.length
decreasing_by
  all_goals simp only [List.length_cons]
  · have := List.Sublist.length_le (List.dropWhile_sublist (fun x => x ≠ '\n') (l := rest))
    omega
  · have h1 := (skipBlockComment rest.tail).property
    have h2 : rest.tail.length = rest.length - 1 := List.length_tail rest
    omega
  · have := List.Sublist.length_le
      (List.dropWhile_sublist (fun x => c_isalnum x || x = '_') (l := rest))
    omega
  · have := List.Sublist.length_le (List.dropWhile_sublist c_isdigit (l := rest))
    omega
  all_goals omega

/-- `Tokenizer::tokenize`: scan the whole source left to right, starting at
line 1. -/
def Tokenizer.tokenize (src : String) : Except String (List Token) :=
  tokenizeLoop src.data 1

/-- The expression type tag (`VarType` in `src/parser.hpp`): `NONE` is the
permissive "not yet determined" wildcard, `INT` the only concrete type. -/
inductive VarType where
  | NONE
  | INT
deriving DecidableEq

/-- `to_string(VarType)` from `src/parser.hpp` (the C++ `default: "auto"`
branch is unreachable for a two-value enum and has no counterpart here). -/
def VarType.to_string : VarType → String
  | .NONE => ""
  | .INT => "int"

/-- `to_variable_type` from `src/parser.hpp`: only an `INTEGER_LITERAL`
token kind maps to the concrete `INT`; everything else is `NONE`. -/
def to_variable_type : TokenType → VarType
  | .INTEGER_LITERAL => .INT
  | _ => .NONE

mutual

/-- `Node::Term`: a term variant plus its `VarType` tag. -/
inductive Term where
  | mk : TermVar → VarType → Term

/-- The variant payload of `Node::Term`: integer literal, identifier, or
parenthesised expression. -/
inductive TermVar where
  | intLit : Token → TermVar
  | ident : Token → TermVar
  | paren : Expr → TermVar

/-- The variant payload of `Node::BinExpr`: `Add`, `Sub`, `Multi`, `Div`,
each holding left and right sides. -/
inductive BinExpr where
  | add : Expr → Expr → BinExpr
  | sub : Expr → Expr → BinExpr
  | multi : Expr → Expr → BinExpr
  | div : Expr → Expr → BinExpr

/-- `Node::Expr`: a variant plus its `VarType` tag. -/
inductive Expr where
  | mk : ExprVar → VarType → Expr

/-- The variant payload of `Node::Expr`: a term or a binary expression. -/
inductive ExprVar where
  | term : Term → ExprVar
  | binE : BinExpr → ExprVar

end

/-- The `type` field of `Node::Expr`. -/
def Expr.type : Expr → VarType
  | .mk _ t => t

/-- The `var` field of `Node::Expr`. -/
def Expr.var : Expr → ExprVar
  | .mk v _ => v

/-- The `type` field of `Node::Term`. -/
def Term.type : Term → VarType
  | .mk _ t => t

mutual

/-- `Node::Stmt`: return, `var` declaration, assignment, block scope, or
`if` statement. -/
inductive Stmt where
  | ret : Expr → Stmt
  | varD : Token → Expr → Stmt
  | varAssign : Token → Expr → Stmt
  | scope : Scope → Stmt
  | stmtIf : StmtIf → Stmt

/-- `Node::Scope`: an ordered sequence of statements. -/
inductive Scope where
  | mk : List Stmt → Scope

/-- `Node::StmtIf`: condition, body, optional predicate chain. -/
inductive StmtIf where
  | mk : Expr → Scope → Option IfPred → StmtIf

/-- `Node::IfPred`: an `elif` link (condition, body, optional next link) or
a terminal `else` link (body only, no successor field). -/
inductive IfPred where
  | elif : Expr → Scope → Option IfPred → IfPred
  | els : Scope → IfPred

end

/-- `Node::Prog`: the ordered top-level statement sequence. -/
structure Prog where
  stmts : List Stmt

/-- A parse diagnostic as passed to `Parser::exit_with`: the default
template `missing <what>` or the type-mismatch template
`wrong operation : <types and operator>`, with the line it reports. -/
inductive PError where
  | missing : String → Nat → PError
  | wrongOperation : String → Nat → PError
  | assertFail : PError
deriving DecidableEq

/-- The full diagnostic text `Parser::exit_with` writes to `std::cerr`. -/
def PError.render : PError → String
  | .missing s n => "[Parse Error] missing " ++ s ++ " on line " ++ toString n
  | .wrongOperation s n => "[Parse Error] wrong operation : " ++ s ++ " on line " ++ toString n
  | .assertFail => "Assertion `false` failed"

/-- Whether a diagnostic is the type-mismatch one. -/
def PError.isWrongOp : PError → Bool
  | .wrongOperation _ _ => true
  | _ => false

/-- The line number `Parser::exit_with` reports: the line of the next
unconsumed token if one exists (`peek()`), else the line of the most
recently consumed token (`peek(-1)`), which every parse function threads
through as `last`. -/
def errLine (ts : List Token) (last : Nat) : Nat :=
  match ts with
  | t :: _ => t.line
  | [] => last

namespace Parser

/-- `Parser::peek_type`: whether the token `offset` places ahead exists and
has the given kind. -/
def peek_type (ts : List Token) (type : TokenType) (offset : Nat) : Bool :=
  match ts[offset]? with
  | some tok => tok.type == type
  | none => false

/-- `Parser::try_consume_err`: consume a token of the given kind or fail
with the `missing <kind>` diagnostic.  The result carries the strict
cursor-advance bound. -/
def try_consume_err (type : TokenType) (ts : List Token) (last : Nat) :
    Except PError (Token × {l : List Token // l.length < ts.length}) :=
  match ts with
  | t :: r =>
    if t.type = type then .ok (t, ⟨r, by simp⟩)
    else .error (.missing type.to_string t.line)
  | [] => .error (.missing type.to_string last)

/-- The type-compatibility guard checked in `Parser::parse_expr` before
folding a binary node: both operand types concrete (not `NONE`) and
unequal. -/
def wrong_operation_check (ltype rtype : VarType) : Bool :=
  ltype != VarType.NONE && rtype != VarType.NONE && ltype != rtype

/-- The four-way operator dispatch of `Parser::parse_expr`'s fold step
(`PLUS`/`MINUS`/`STAR`/`SLASH`); `none` corresponds to the C++
`assert(false)` branch, which is unreachable because the operator was
admitted by `bin_prec`. -/
def mk_bin_expr (opType : TokenType) (lside rside : Expr) : Option BinExpr :=
  match opType with
  | .PLUS => some (BinExpr.add lside rside)
  | .MINUS => some (BinExpr.sub lside rside)
  | .STAR => some (BinExpr.multi lside rside)
  | .SLASH => some (BinExpr.div lside rside)
  | _ => none

mutual

/-- `Parser::parse_term`: integer literal, identifier, or parenthesised
expression; `ok none` means "no term here, nothing consumed".  Successful
results carry the rest of the tokens (with the strict cursor-advance
bound) and the line of the last token consumed. -/
def parse_term (ts : List Token) (last : Nat) :
    Except PError (Option (Term × {l : List Token // l.length < ts.length} × Nat)) :=
  match ts with
  | [] => .ok none
  | t :: r =>
    match t.type with
    | TokenType.INTEGER_LITERAL =>
      .ok (some (Term.mk (TermVar.intLit t) VarType.INT, ⟨r, by simp⟩, t.line))
    | TokenType.IDENTIFIER =>
      .ok (some (Term.mk (TermVar.ident t) (to_variable_type t.type), ⟨r, by simp⟩, t.line))
    | TokenType.LEFT_PARENTHESIS =>
      match parse_expr 0 r t.line with
      | .error e => .error e
      | .ok none => .error (.missing "expression" (errLine r t.line))
      | .ok (some (ex, ⟨r2, h2⟩, l2)) =>
        match try_consume_err TokenType.RIGHT_PARENTHESIS r2 l2 with
        | .error e => .error e
        | .ok (rp, ⟨r3, h3⟩) =>
          .ok (some (Term.mk (TermVar.paren ex) ex.type, ⟨r3, by
            simp only [List.length_cons]; omega⟩, rp.line))
    | _ => .ok none
termination_by (ts.length, 0)

/-- `Parser::parse_expr` with minimum precedence `min_prec`: parse one term,
seed the expression with the term's variant and type, then run the
precedence-climbing fold loop. -/
def parse_expr (min_prec : Nat) (ts : List Token) (last : Nat) :
    Except PError (Option (Expr × {l : List Token // l.length < ts.length} × Nat)) :=
  match parse_term ts last with
  | .error e => .error e
  | .ok none => .ok none
  | .ok (some (lterm, ⟨r, hr⟩, l1)) =>
    match parse_expr_loop min_prec (Expr.mk (ExprVar.term lterm) lterm.type) r l1 with
    | .error e => .error e
    | .ok (ex, ⟨r2, h2⟩, l2) => .ok (some (ex, ⟨r2, by omega⟩, l2))
termination_by (ts.length, 1)

/-- The `while (true)` fold loop of `Parser::parse_expr`: stop when the next
token is absent, is no binary operator, or binds below `min_prec`;
otherwise consume the operator, parse the right side with minimum
precedence one higher, run the type guard, and fold.  As in the C++, the
folded-in left copy `Expr(expr->var)` gets the default type `NONE`, while
the accumulator keeps its original type. -/
def parse_expr_loop (min_prec : Nat) (expr : Expr) (ts : List Token) (last : Nat) :
    Except PError (Expr × {l : List Token // l.length ≤ ts.length} × Nat) :=
  match ts with
  | [] => .ok (expr, ⟨[], by simp⟩, last)
  | op :: rest =>
    match bin_prec op.type with
    | none => .ok (expr, ⟨op :: rest, by simp⟩, last)
    | some prec =>
      if prec < min_prec then .ok (expr, ⟨op :: rest, by simp⟩, last)
      else
        match parse_expr (prec + 1) rest op.line with
        | .error e => .error e
        | .ok none => .error (.missing "expression" (errLine rest op.line))
        | .ok (some (rside, ⟨r2, h2⟩, l2)) =>
          if wrong_operation_check expr.type rside.type then
            .error (.wrongOperation
              (expr.type.to_string ++ op.type.to_string ++ rside.type.to_string)
              (errLine r2 l2))
          else
            let lside := Expr.mk expr.var VarType.NONE
            match mk_bin_expr op.type lside rside with
            | some be =>
              match parse_expr_loop min_prec (Expr.mk (ExprVar.binE be) expr.type) r2 l2 with
              | .error e => .error e
              | .ok (e3, ⟨r3, h3⟩, l3) =>
                .ok (e3, ⟨r3, by simp only [List.length_cons]; omega⟩, l3)
            | none => .error PError.assertFail
termination_by (ts.length, 2)

end

end Parser

namespace Parser

mutual

/-- `Parser::parse_scope`: consume `{`, collect statements while
`parse_stmt` succeeds, then require `}`.  `ok none` means the opening brace
is absent and nothing was consumed. -/
def parse_scope (ts : List Token) (last : Nat) :
    Except PError (Option (Scope × {l : List Token // l.length < ts.length} × Nat)) :=
  match ts with
  | [] => .ok none
  | t :: r =>
    if t.type = TokenType.LEFT_CURLY_BACKET then
      match parse_stmt_list r t.line with
      | .error e => .error e
      | .ok (stmts, ⟨r2, h2⟩, l2) =>
        match try_consume_err TokenType.RIGHT_CURLY_BRACKET r2 l2 with
        | .error e => .error e
        | .ok (rb, ⟨r3, h3⟩) =>
          .ok (some (Scope.mk stmts, ⟨r3, by simp only [List.length_cons]; omega⟩, rb.line))
    else .ok none
termination_by (ts.length, 0)

/-- `Parser::parse_stmt`: fixed-lookahead statement dispatch in source
order: `return`, `var <ident> =`, `<ident> =`, block scope, `if`; anything
else is "no statement, nothing consumed". -/
def parse_stmt (ts : List Token) (last : Nat) :
    Except PError (Option (Stmt × {l : List Token // l.length < ts.length} × Nat)) :=
  match ts with
  | [] => .ok none
  | t :: r =>
    if t.type = TokenType.RETURN then
      match parse_expr 0 r t.line with
      | .error e => .error e
      | .ok none => .error (.missing "return value" (errLine r t.line))
      | .ok (some (ex, ⟨r1, h1⟩, l1)) =>
        .ok (some (Stmt.ret ex, ⟨r1, by simp only [List.length_cons]; omega⟩, l1))
    else if hv : peek_type (t :: r) TokenType.VAR 0 && peek_type (t :: r) TokenType.IDENTIFIER 1 &&
        peek_type (t :: r) TokenType.EQUAL 2 then
      match r, hv with
      | idTok :: eqTok :: r2, _ =>
        match parse_expr 0 r2 eqTok.line with
        | .error e => .error e
        | .ok none => .error (.missing "expression" (errLine r2 eqTok.line))
        | .ok (some (ex, ⟨r3, h3⟩, l3)) =>
          .ok (some (Stmt.varD idTok ex, ⟨r3, by simp only [List.length_cons]; omega⟩, l3))
      | [], hv => False.elim (by simp [peek_type] at hv)
      | [_], hv => False.elim (by simp [peek_type] at hv)
    else if ha : peek_type (t :: r) TokenType.IDENTIFIER 0 && peek_type (t :: r) TokenType.EQUAL 1 then
      match r, ha with
      | eqTok :: r2, _ =>
        match parse_expr 0 r2 eqTok.line with
        | .error e => .error e
        | .ok none => .error (.missing "expression" (errLine r2 eqTok.line))
        | .ok (some (ex, ⟨r3, h3⟩, l3)) =>
          .ok (some (Stmt.varAssign t ex, ⟨r3, by simp only [List.length_cons]; omega⟩, l3))
      | [], ha => False.elim (by simp [peek_type] at ha)
    else if t.type = TokenType.LEFT_CURLY_BACKET then
      match parse_scope (t :: r) last with
      | .error e => .error e
      | .ok none => .error (.missing "scope" (errLine (t :: r) last))
      | .ok (some (sc, ⟨r1, h1⟩, l1)) => .ok (some (Stmt.scope sc, ⟨r1, h1⟩, l1))
    else if t.type = TokenType.IF then
      match try_consume_err TokenType.LEFT_PARENTHESIS r t.line with
      | .error e => .error e
      | .ok (lp, ⟨r1, h1⟩) =>
        match parse_expr 0 r1 lp.line with
        | .error e => .error e
        | .ok none => .error (.missing "expression" (errLine r1 lp.line))
        | .ok (some (ex, ⟨r2, h2⟩, l2)) =>
          match try_consume_err TokenType.RIGHT_PARENTHESIS r2 l2 with
          | .error e => .error e
          | .ok (rp, ⟨r3, h3⟩) =>
            match parse_scope r3 rp.line with
            | .error e => .error e
            | .ok none => .error (.missing "scope" (errLine r3 rp.line))
            | .ok (some (sc, ⟨r4, h4⟩, l4)) =>
              match parse_if_pred r4 l4 with
              | .error e => .error e
              | .ok none =>
                .ok (some (Stmt.stmtIf (StmtIf.mk ex sc none),
                  ⟨r4, by simp only [List.length_cons]; omega⟩, l4))
              | .ok (some (p, ⟨r5, h5⟩, l5)) =>
                .ok (some (Stmt.stmtIf (StmtIf.mk ex sc (some p)),
                  ⟨r5, by simp only [List.length_cons]; omega⟩, l5))
    else .ok none
termination_by (ts.length, 1)

/-- The `while (auto stmt = parse_stmt())` loop of `Parser::parse_scope`:
collect statements in order until `parse_stmt` reports "no statement". -/
def parse_stmt_list (ts : List Token) (last : Nat) :
    Except PError (List Stmt × {l : List Token // l.length ≤ ts.length} × Nat) :=
  match parse_stmt ts last with
  | .error e => .error e
  | .ok none => .ok ([], ⟨ts, by simp⟩, last)
  | .ok (some (s, ⟨r, hr⟩, l1)) =>
    match parse_stmt_list r l1 with
    | .error e => .error e
    | .ok (ss, ⟨r2, h2⟩, l2) => .ok (s :: ss, ⟨r2, by omega⟩, l2)
termination_by (ts.length, 2)

/-- `Parser::parse_if_pred`: an `elif` link (condition in parentheses, scope,
then a recursive optional tail) or a terminal `else` link (scope); `ok
none` means neither keyword is next and nothing was consumed. -/
def parse_if_pred (ts : List Token) (last : Nat) :
    Except PError (Option (IfPred × {l : List Token // l.length < ts.length} × Nat)) :=
  match ts with
  | [] => .ok none
  | t :: r =>
    if t.type = TokenType.ELIF then
      match try_consume_err TokenType.LEFT_PARENTHESIS r t.line with
      | .error e => .error e
      | .ok (lp, ⟨r1, h1⟩) =>
        match parse_expr 0 r1 lp.line with
        | .error e => .error e
        | .ok none => .error (.missing "expression" (errLine r1 lp.line))
        | .ok (some (ex, ⟨r2, h2⟩, l2)) =>
          match try_consume_err TokenType.RIGHT_PARENTHESIS r2 l2 with
          | .error e => .error e
          | .ok (rp, ⟨r3, h3⟩) =>
            match parse_scope r3 rp.line with
            | .error e => .error e
            | .ok none => .error (.missing "scope" (errLine r3 rp.line))
            | .ok (some (sc, ⟨r4, h4⟩, l4)) =>
              match parse_if_pred r4 l4 with
              | .error e => .error e
              | .ok none =>
                .ok (some (IfPred.elif ex sc none,
                  ⟨r4, by simp only [List.length_cons]; omega⟩, l4))
              | .ok (some (p, ⟨r5, h5⟩, l5)) =>
                .ok (some (IfPred.elif ex sc (some p),
                  ⟨r5, by simp only [List.length_cons]; omega⟩, l5))
    else if t.type = TokenType.ELSE then
      match parse_scope r t.line with
      | .error e => .error e
      | .ok none => .error (.missing "scope" (errLine r t.line))
      | .ok (some (sc, ⟨r1, h1⟩, l1)) =>
        .ok (some (IfPred.els sc, ⟨r1, by simp only [List.length_cons]; omega⟩, l1))
    else .ok none
termination_by (ts.length, 3)

end

/-- `Parser::parse_prog`: while tokens remain, parse one statement and
append it; report `missing statement` if none applies.  The accumulator
loop is rendered as the equivalent structural fold (same `parse_stmt`
calls in the same order, same pushes, same first-error behaviour). -/
def parse_prog (ts : List Token) (last : Nat) : Except PError Prog :=
  match ts with
  | [] => .ok ⟨[]⟩
  | t :: r =>
    match parse_stmt (t :: r) last with
    | .error e => .error e
    | .ok none => .error (.missing "statement" (errLine (t :: r) last))
    | .ok (some (s, ⟨r1, h1⟩, l1)) =>
      match parse_prog r1 l1 with
      | .error e => .error e
      | .ok p => .ok ⟨s :: p.stmts⟩
termination_by ts.length

/-- `Parser::parse_prog` as called on a fresh `Parser` (cursor at 0; the
`last` seed stands for the out-of-range `peek(-1)` that C++ could only
reach on an empty input, where it is never read). -/
def parse (tokens : List Token) : Except PError Prog :=
  parse_prog tokens 0

/-- Proof-erased view of `parse_term`: term, remaining tokens, last line. -/
def parse_term_run (ts : List Token) (last : Nat) :
    Except PError (Option (Term × List Token × Nat)) :=
  (parse_term ts last).map (Option.map fun p => (p.1, p.2.1.val, p.2.2))

/-- Proof-erased view of `parse_expr`. -/
def parse_expr_run (min_prec : Nat) (ts : List Token) (last : Nat) :
    Except PError (Option (Expr × List Token × Nat)) :=
  (parse_expr min_prec ts last).map (Option.map fun p => (p.1, p.2.1.val, p.2.2))

/-- Proof-erased view of `parse_stmt`. -/
def parse_stmt_run (ts : List Token) (last : Nat) :
    Except PError (Option (Stmt × List Token × Nat)) :=
  (parse_stmt ts last).map (Option.map fun p => (p.1, p.2.1.val, p.2.2))

/-- Proof-erased view of `parse_if_pred`. -/
def parse_if_pred_run (ts : List Token) (last : Nat) :
    Except PError (Option (IfPred × List Token × Nat)) :=
  (parse_if_pred ts last).map (Option.map fun p => (p.1, p.2.1.val, p.2.2))

end Parser

namespace Parser

/-- Whether a parse result is the fatal type-mismatch diagnostic
(`wrong operation : ...`), as opposed to success or a `missing ...`
diagnostic. -/
def is_wrong_op_error {α : Type} : Except PError α → Bool
  | .error (.wrongOperation _ _) => true
  | _ => false

/-- The result type tag of an expression parse: `parse_expr` projected to
the `type` field of the produced `Expr`. -/
def parse_expr_type (min_prec : Nat) (ts : List Token) : Except PError (Option VarType) :=
  (parse_expr min_prec ts 0).map (Option.map fun p => p.1.type)

/-- One run of the `parse_prog` loop, as a relation: the empty token
sequence yields the empty statement list, and otherwise one `parse_stmt`
success contributes the head statement and the remainder of the run the
tail, in source order. -/
inductive ProgRun : List Token → Nat → List Stmt → Prop where
  | nil (last : Nat) : ProgRun [] last []
  | cons (ts : List Token) (last : Nat) (s : Stmt) (r : List Token) (l : Nat) (rest : List Stmt) :
      parse_stmt_run ts last = Except.ok (some (s, r, l)) →
      ProgRun r l rest →
      ProgRun ts last (s :: rest)

end Parser

/-- Number of terminal `Else` links in an `elif`/`else` predicate chain
(an `els` link has no successor field, so it can only be terminal). -/
def IfPred.elseCount : IfPred → Nat
  | .elif _ _ none => 0
  | .elif _ _ (some p) => IfPred.elseCount p
  | .els _ => 1

namespace Parser

theorem wrong_operation_check_false (t1 t2 : VarType) :
    wrong_operation_check t1 t2 = false := by
  cases t1 <;> cases t2 <;> rfl

theorem is_wrong_op_error_error {α : Type} (e : PError) :
    is_wrong_op_error (α := α) (Except.error e) = e.isWrongOp := by
  cases e <;> rfl

theorem nw_try_consume_err (ty : TokenType) (ts : List Token) (last : Nat) :
    is_wrong_op_error (try_consume_err ty ts last) = false := by
  rcases ts with _ | ⟨t, r⟩
  · rfl
  · simp only [try_consume_err]
    split <;> rfl

mutual

theorem nw_term (ts : List Token) (last : Nat) :
    is_wrong_op_error (parse_term ts last) = false := by
  rcases ts with _ | ⟨t, r⟩
  · simp [parse_term, is_wrong_op_error]
  · cases htt : t.type
    case LEFT_PARENTHESIS =>
      rcases hpe : parse_expr 0 r t.line with e | (_ | ⟨ex, ⟨r2, h2⟩, l2⟩)
      · have h := nw_expr 0 r t.line
        rw [hpe] at h
        simpa [parse_term, htt, hpe, is_wrong_op_error_error] using h
      · simp [parse_term, htt, hpe, is_wrong_op_error]
      · rcases htc : try_consume_err TokenType.RIGHT_PARENTHESIS r2 l2 with e2 | ⟨rp, ⟨r3, h3⟩⟩
        · have h := nw_try_consume_err TokenType.RIGHT_PARENTHESIS r2 l2
          rw [htc] at h
          simpa [parse_term, htt, hpe, htc, is_wrong_op_error_error] using h
        · simp [parse_term, htt, hpe, htc, is_wrong_op_error]
    all_goals simp [parse_term, htt, is_wrong_op_error]
termination_by (ts.length, 0)

theorem nw_expr (min_prec : Nat) (ts : List Token) (last : Nat) :
    is_wrong_op_error (parse_expr min_prec ts last) = false := by
  rcases hpt : parse_term ts last with e | (_ | ⟨lt, ⟨r, hr⟩, l1⟩)
  · have h := nw_term ts last
    rw [hpt] at h
    simpa [parse_expr, hpt, is_wrong_op_error_error] using h
  · simp [parse_expr, hpt, is_wrong_op_error]
  · rcases hlp : parse_expr_loop min_prec (Expr.mk (ExprVar.term lt) lt.type) r l1 with
      e2 | ⟨e3, ⟨r2, h2⟩, l2⟩
    · have h := nw_loop min_prec (Expr.mk (ExprVar.term lt) lt.type) r l1
      rw [hlp] at h
      simpa [parse_expr, hpt, hlp, is_wrong_op_error_error] using h
    · simp [parse_expr, hpt, hlp, is_wrong_op_error]
termination_by (ts.length, 1)

theorem nw_loop (min_prec : Nat) (expr : Expr) (ts : List Token) (last : Nat) :
    is_wrong_op_error (parse_expr_loop min_prec expr ts last) = false := by
  rcases ts with _ | ⟨op, rest⟩
  · simp [parse_expr_loop, is_wrong_op_error]
  · rcases hp : bin_prec op.type with _ | prec
    · simp [parse_expr_loop, hp, is_wrong_op_error]
    · by_cases hlt : prec < min_prec
      · simp [parse_expr_loop, hp, hlt, is_wrong_op_error]
      · rcases hpe : parse_expr (prec + 1) rest op.line with e | (_ | ⟨rside, ⟨r2, h2⟩, l2⟩)
        · have h := nw_expr (prec + 1) rest op.line
          rw [hpe] at h
          simpa [parse_expr_loop, hp, hlt, hpe, is_wrong_op_error_error] using h
        · simp [parse_expr_loop, hp, hlt, hpe, is_wrong_op_error]
        · rcases hbe : mk_bin_expr op.type (Expr.mk expr.var VarType.NONE) rside with _ | be
          · simp [parse_expr_loop, hp, hlt, hpe, wrong_operation_check_false, hbe,
              is_wrong_op_error]
          · rcases hrec : parse_expr_loop min_prec (Expr.mk (ExprVar.binE be) expr.type) r2 l2 with
              e3 | ⟨e4, ⟨r3, h3⟩, l3⟩
            · have h := nw_loop min_prec (Expr.mk (ExprVar.binE be) expr.type) r2 l2
              rw [hrec] at h
              simpa [parse_expr_loop, hp, hlt, hpe, wrong_operation_check_false, hbe, hrec,
                is_wrong_op_error_error] using h
            · simp [parse_expr_loop, hp, hlt, hpe, wrong_operation_check_false, hbe, hrec,
                is_wrong_op_error]
termination_by (ts.length, 2)

end

theorem parse_stmt_run_lt (ts : List Token) (last : Nat) (s : Stmt) (r : List Token) (l : Nat)
    (h : parse_stmt_run ts last = Except.ok (some (s, r, l))) : r.length < ts.length := by
  rcases hraw : parse_stmt ts last with e | (_ | ⟨s2, ⟨r2, h2⟩, l2⟩) <;>
    simp [parse_stmt_run, hraw, Except.map] at h
  rcases h with ⟨hs, hr, hl⟩
  rw [← hr]
  exact h2

theorem parse_term_run_lt (ts : List Token) (last : Nat) (tm : Term) (r : List Token) (l : Nat)
    (h : parse_term_run ts last = Except.ok (some (tm, r, l))) : r.length < ts.length := by
  rcases hraw : parse_term ts last with e | (_ | ⟨t2, ⟨r2, h2⟩, l2⟩) <;>
    simp [parse_term_run, hraw, Except.map] at h
  rcases h with ⟨hs, hr, hl⟩
  rw [← hr]
  exact h2

theorem parse_stmt_raw_to_run (ts : List Token) (last : Nat) (s : Stmt) (r : List Token)
    (l : Nat) (hb : r.length < ts.length)
    (h : parse_stmt ts last = Except.ok (some (s, ⟨r, hb⟩, l))) :
    parse_stmt_run ts last = Except.ok (some (s, r, l)) := by
  simp [parse_stmt_run, h, Except.map]

theorem parse_stmt_run_to_raw (ts : List Token) (last : Nat) (s : Stmt) (r : List Token) (l : Nat)
    (h : parse_stmt_run ts last = Except.ok (some (s, r, l))) :
    ∃ hb : r.length < ts.length, parse_stmt ts last = Except.ok (some (s, ⟨r, hb⟩, l)) := by
  rcases hraw : parse_stmt ts last with e | (_ | ⟨s2, ⟨r2, h2⟩, l2⟩) <;>
    simp [parse_stmt_run, hraw, Except.map] at h
  rcases h with ⟨hs, hr, hl⟩
  subst hs hl
  rcases hr with rfl
  exact ⟨h2, rfl⟩

end Parser

namespace Parser

theorem parse_prog_progRun_bounded (n : Nat) : ∀ (ts : List Token), ts.length ≤ n →
    ∀ (last : Nat) (stmts : List Stmt),
    parse_prog ts last = Except.ok ⟨stmts⟩ ↔ ProgRun ts last stmts := by
  induction n with
  | zero =>
    intro ts hlen last stmts
    have hts : ts = [] := by cases ts <;> simp_all
    subst hts
    constructor
    · intro h
      simp [parse_prog] at h
      subst h
      exact ProgRun.nil last
    · intro h
      cases h with
      | nil => simp [parse_prog]
      | cons _ _ s' r' l' rest' hrun hrest =>
        simp [parse_stmt_run, parse_stmt, Except.map] at hrun
  | succ n ih =>
    intro ts hlen last stmts
    rcases ts with _ | ⟨t, r⟩
    · constructor
      · intro h
        simp [parse_prog] at h
        subst h
        exact ProgRun.nil last
      · intro h
        cases h with
        | nil => simp [parse_prog]
        | cons _ _ s' r' l' rest' hrun hrest =>
          simp [parse_stmt_run, parse_stmt, Except.map] at hrun
    · rcases hstmt : parse_stmt (t :: r) last with e | (_ | ⟨s, ⟨r1, h1⟩, l1⟩)
      · constructor
        · intro h
          simp [parse_prog, hstmt] at h
        · intro h
          cases h with
          | cons _ _ s' r' l' rest' hrun hrest =>
            rcases parse_stmt_run_to_raw _ _ _ _ _ hrun with ⟨hb, hraw⟩
            rw [hstmt] at hraw
            cases hraw
      · constructor
        · intro h
          simp [parse_prog, hstmt] at h
        · intro h
          cases h with
          | cons _ _ s' r' l' rest' hrun hrest =>
            rcases parse_stmt_run_to_raw _ _ _ _ _ hrun with ⟨hb, hraw⟩
            rw [hstmt] at hraw
            cases hraw
      · have hr1 : r1.length ≤ n := by
          simp only [List.length_cons] at h1 hlen
          omega
        rcases hrec : parse_prog r1 l1 with e2 | ⟨⟨rest⟩⟩
        · constructor
          · intro h
            simp [parse_prog, hstmt, hrec] at h
          · intro h
            cases h with
            | cons _ _ s' r' l' rest' hrun hrest =>
              rcases parse_stmt_run_to_raw _ _ _ _ _ hrun with ⟨hb, hraw⟩
              rw [hstmt] at hraw
              simp only [Except.ok.injEq, Option.some.injEq, Prod.mk.injEq,
                Subtype.mk.injEq] at hraw
              obtain ⟨rfl, rfl, rfl⟩ := hraw
              have hok := (ih r1 hr1 l1 rest').mpr hrest
              rw [hrec] at hok
              cases hok
        · constructor
          · intro h
            simp [parse_prog, hstmt, hrec] at h
            subst h
            exact ProgRun.cons _ _ s r1 l1 rest
              (parse_stmt_raw_to_run _ _ _ _ _ h1 hstmt)
              ((ih r1 hr1 l1 rest).mp hrec)
          · intro h
            cases h with
            | cons _ _ s' r' l' rest' hrun hrest =>
              rcases parse_stmt_run_to_raw _ _ _ _ _ hrun with ⟨hb, hraw⟩
              rw [hstmt] at hraw
              simp only [Except.ok.injEq, Option.some.injEq, Prod.mk.injEq,
                Subtype.mk.injEq] at hraw
              obtain ⟨rfl, rfl, rfl⟩ := hraw
              have hok := (ih r1 hr1 l1 rest').mpr hrest
              rw [hrec] at hok
              injection hok with hok2
              injection hok2 with hok3
              simp [parse_prog, hstmt, hrec, hok3]

end Parser

theorem elseCount_le_one : ∀ p : IfPred, p.elseCount ≤ 1
  | .elif _ _ none => by simp [IfPred.elseCount]
  | .elif _ _ (some p) => by simpa [IfPred.elseCount] using elseCount_le_one p
  | .els _ => by simp [IfPred.elseCount]

/-- C1 (counterexample): parsing the token sequence of `x + 2` — left
operand of type `None`, right operand of type `Int` — succeeds, but the
resulting `Expr`'s type tag is `None`, not the other operand's type `Int`
as the claim requires: `parse_expr` seeds the expression type from the
first term and never updates it when folding a binary node. -/
theorem parse_expr_none_plus_int_yields_none :
    Parser.parse_expr_type 0 [⟨TokenType.IDENTIFIER, 1, some "x"⟩, ⟨TokenType.PLUS, 1, none⟩,
      ⟨TokenType.INTEGER_LITERAL, 1, some "2"⟩] = Except.ok (some VarType.NONE) := by
  simp +decide [Parser.parse_expr_type, Parser.parse_expr, Parser.parse_term,
    Parser.parse_expr_loop, Parser.try_consume_err, Parser.wrong_operation_check,
    Parser.mk_bin_expr, bin_prec, to_variable_type, Expr.type, Expr.var, Term.type,
    VarType.to_string, TokenType.to_string, errLine, Except.map, Option.map]

/-- C1 (amended): the type tag of an `Expr` folded by `parse_expr` is its
left (first) term's type, not the join of its operand types.  With at
least one `None` operand parsing succeeds either way, but only the
`Int`-left/`None`-right orientation produces `Int`; `None`-left/`Int`-right
produces `None`. -/
theorem parse_expr_type_is_left_terms_type :
    Parser.parse_expr_run 0 [⟨TokenType.IDENTIFIER, 1, some "x"⟩, ⟨TokenType.PLUS, 1, none⟩,
        ⟨TokenType.INTEGER_LITERAL, 1, some "2"⟩] 0 =
      Except.ok (some (Expr.mk (ExprVar.binE (BinExpr.add
        (Expr.mk (ExprVar.term (Term.mk (TermVar.ident ⟨TokenType.IDENTIFIER, 1, some "x"⟩)
          VarType.NONE)) VarType.NONE)
        (Expr.mk (ExprVar.term (Term.mk (TermVar.intLit ⟨TokenType.INTEGER_LITERAL, 1, some "2"⟩)
          VarType.INT)) VarType.INT)))
        VarType.NONE, [], 1)) ∧
    Parser.parse_expr_run 0 [⟨TokenType.INTEGER_LITERAL, 1, some "2"⟩, ⟨TokenType.PLUS, 1, none⟩,
        ⟨TokenType.IDENTIFIER, 1, some "x"⟩] 0 =
      Except.ok (some (Expr.mk (ExprVar.binE (BinExpr.add
        (Expr.mk (ExprVar.term (Term.mk (TermVar.intLit ⟨TokenType.INTEGER_LITERAL, 1, some "2"⟩)
          VarType.INT)) VarType.NONE)
        (Expr.mk (ExprVar.term (Term.mk (TermVar.ident ⟨TokenType.IDENTIFIER, 1, some "x"⟩)
          VarType.NONE)) VarType.NONE)))
        VarType.INT, [], 1)) := by
  constructor <;>
    simp +decide [Parser.parse_expr_run, Parser.parse_expr, Parser.parse_term,
      Parser.parse_expr_loop, Parser.try_consume_err, Parser.wrong_operation_check,
      Parser.mk_bin_expr, bin_prec, to_variable_type, Expr.type, Expr.var, Term.type,
      VarType.to_string, TokenType.to_string, errLine, Except.map, Option.map]

/-- C2 (counterexample): tokenizing `/*\n*/x` attaches line 1 to the token
`x`, although one newline precedes it in the source: the block-comment scan
consumes the newline without incrementing the line counter, so the claimed
line `1 + 1 = 2` is not what the code produces. -/
theorem block_comment_newline_not_counted :
    Tokenizer.tokenize "/*\n*/x" = Except.ok [⟨TokenType.IDENTIFIER, 1, some "x"⟩] ∧
    "/*\n*/x".data.count '\n' = 1 := by
  constructor
  · simp +decide [Tokenizer.tokenize, tokenizeLoop, skipBlockComment, c_isalpha, c_isdigit,
      c_isalnum, c_isspace, quoteChar, quoteStr, lcurlyChar, rcurlyChar, Except.map]
  · decide

/-- C2 (amended): a newline scanned by the tokenizer's newline branch
increments the line counter — also after a `//` line comment, which stops
in front of the newline — but newlines consumed inside a `/* ... */` block
comment do not: `\nx` and `//c\nx` attach line 2 to `x`, while `/*\n*/x`
attaches line 1 despite the preceding newline. -/
theorem line_count_skips_block_comment_newlines :
    Tokenizer.tokenize "\nx" = Except.ok [⟨TokenType.IDENTIFIER, 2, some "x"⟩] ∧
    Tokenizer.tokenize "//c\nx" = Except.ok [⟨TokenType.IDENTIFIER, 2, some "x"⟩] ∧
    Tokenizer.tokenize "/*\n*/x" = Except.ok [⟨TokenType.IDENTIFIER, 1, some "x"⟩] := by
  refine ⟨?_, ?_, ?_⟩ <;>
    simp +decide [Tokenizer.tokenize, tokenizeLoop, skipBlockComment, c_isalpha, c_isdigit,
      c_isalnum, c_isspace, quoteChar, quoteStr, lcurlyChar, rcurlyChar, Except.map]

/-- C3: `2 + 3 * 4` tokenizes to the five expected tokens and parses to an
`Add` whose left operand is the integer-literal term `2` and whose right
operand is `Multi(3, 4)` — not `Multi(Add(2, 3), 4)` — because `+ -` bind at
precedence 0, `* /` at precedence 1, and an operator below the current
minimum precedence stops the folding loop. -/
theorem precedence_two_plus_three_times_four :
    bin_prec TokenType.PLUS = some 0 ∧ bin_prec TokenType.MINUS = some 0 ∧
    bin_prec TokenType.STAR = some 1 ∧ bin_prec TokenType.SLASH = some 1 ∧
    Tokenizer.tokenize "2 + 3 * 4" =
      Except.ok [⟨TokenType.INTEGER_LITERAL, 1, some "2"⟩, ⟨TokenType.PLUS, 1, none⟩,
        ⟨TokenType.INTEGER_LITERAL, 1, some "3"⟩, ⟨TokenType.STAR, 1, none⟩,
        ⟨TokenType.INTEGER_LITERAL, 1, some "4"⟩] ∧
    Parser.parse_expr_run 0 [⟨TokenType.INTEGER_LITERAL, 1, some "2"⟩, ⟨TokenType.PLUS, 1, none⟩,
        ⟨TokenType.INTEGER_LITERAL, 1, some "3"⟩, ⟨TokenType.STAR, 1, none⟩,
        ⟨TokenType.INTEGER_LITERAL, 1, some "4"⟩] 0 =
      Except.ok (some (Expr.mk (ExprVar.binE (BinExpr.add
        (Expr.mk (ExprVar.term (Term.mk (TermVar.intLit ⟨TokenType.INTEGER_LITERAL, 1, some "2"⟩)
          VarType.INT)) VarType.NONE)
        (Expr.mk (ExprVar.binE (BinExpr.multi
          (Expr.mk (ExprVar.term (Term.mk (TermVar.intLit ⟨TokenType.INTEGER_LITERAL, 1, some "3"⟩)
            VarType.INT)) VarType.NONE)
          (Expr.mk (ExprVar.term (Term.mk (TermVar.intLit ⟨TokenType.INTEGER_LITERAL, 1, some "4"⟩)
            VarType.INT)) VarType.INT)))
          VarType.INT)))
        VarType.INT, [], 1)) := by
  refine ⟨rfl, rfl, rfl, rfl, ?_, ?_⟩
  · simp +decide [Tokenizer.tokenize, tokenizeLoop, skipBlockComment, c_isalpha, c_isdigit,
      c_isalnum, c_isspace, quoteChar, quoteStr, lcurlyChar, rcurlyChar, Except.map]
  · simp +decide [Parser.parse_expr_run, Parser.parse_expr, Parser.parse_term,
      Parser.parse_expr_loop, Parser.try_consume_err, Parser.wrong_operation_check,
      Parser.mk_bin_expr, bin_prec, to_variable_type, Expr.type, Expr.var, Term.type,
      VarType.to_string, TokenType.to_string, errLine, Except.map, Option.map]

/-- C4: `8 - 3 - 2` tokenizes as expected and parses left-associatively to
`Sub(Sub(8, 3), 2)`, because the right operand of a consumed operator is
parsed with minimum precedence one higher than the operator's own. -/
theorem subtraction_left_associative :
    Tokenizer.tokenize "8 - 3 - 2" =
      Except.ok [⟨TokenType.INTEGER_LITERAL, 1, some "8"⟩, ⟨TokenType.MINUS, 1, none⟩,
        ⟨TokenType.INTEGER_LITERAL, 1, some "3"⟩, ⟨TokenType.MINUS, 1, none⟩,
        ⟨TokenType.INTEGER_LITERAL, 1, some "2"⟩] ∧
    Parser.parse_expr_run 0 [⟨TokenType.INTEGER_LITERAL, 1, some "8"⟩, ⟨TokenType.MINUS, 1, none⟩,
        ⟨TokenType.INTEGER_LITERAL, 1, some "3"⟩, ⟨TokenType.MINUS, 1, none⟩,
        ⟨TokenType.INTEGER_LITERAL, 1, some "2"⟩] 0 =
      Except.ok (some (Expr.mk (ExprVar.binE (BinExpr.sub
        (Expr.mk (ExprVar.binE (BinExpr.sub
          (Expr.mk (ExprVar.term (Term.mk (TermVar.intLit ⟨TokenType.INTEGER_LITERAL, 1, some "8"⟩)
            VarType.INT)) VarType.NONE)
          (Expr.mk (ExprVar.term (Term.mk (TermVar.intLit ⟨TokenType.INTEGER_LITERAL, 1, some "3"⟩)
            VarType.INT)) VarType.INT)))
          VarType.NONE)
        (Expr.mk (ExprVar.term (Term.mk (TermVar.intLit ⟨TokenType.INTEGER_LITERAL, 1, some "2"⟩)
          VarType.INT)) VarType.INT)))
        VarType.INT, [], 1)) := by
  constructor
  · simp +decide [Tokenizer.tokenize, tokenizeLoop, skipBlockComment, c_isalpha, c_isdigit,
      c_isalnum, c_isspace, quoteChar, quoteStr, lcurlyChar, rcurlyChar, Except.map]
  · simp +decide [Parser.parse_expr_run, Parser.parse_expr, Parser.parse_term,
      Parser.parse_expr_loop, Parser.try_consume_err, Parser.wrong_operation_check,
      Parser.mk_bin_expr, bin_prec, to_variable_type, Expr.type, Expr.var, Term.type,
      VarType.to_string, TokenType.to_string, errLine, Except.map, Option.map]

/-- C5 (counterexample): on input `'a` — a quote, one alphanumeric
character, and no closing quote — `tokenize` terminates with the diagnostic
"[Error] expected `'` on line 1", which is a different message from the
claimed "[Error] expected a valid char on line 1". -/
theorem unterminated_char_literal_message :
    Tokenizer.tokenize (String.mk [quoteChar, 'a']) =
      Except.error ("[Error] expected `" ++ quoteStr ++ "` on line 1") ∧
    (("[Error] expected `" ++ quoteStr ++ "` on line 1") ==
      "[Error] expected a valid char on line 1") = false := by
  constructor
  · simp +decide [Tokenizer.tokenize, tokenizeLoop, skipBlockComment, c_isalpha, c_isdigit,
      c_isalnum, c_isspace, quoteChar, quoteStr, lcurlyChar, rcurlyChar, Except.map]
  · decide

/-- C5 (amended): a malformed character literal is a fatal lexical error
producing no token sequence, but the diagnostic depends on the deviation:
a quote followed by a non-alphanumeric character (or end of input) reports
"[Error] expected a valid char on line N", while a quote plus one
alphanumeric character without a closing quote reports
"[Error] expected `'` on line N".  A well-formed literal `'a'` tokenizes to
one `CHAR_LITERAL` token. -/
theorem char_literal_error_messages :
    Tokenizer.tokenize (String.mk [quoteChar, '+']) =
      Except.error "[Error] expected a valid char on line 1" ∧
    Tokenizer.tokenize (String.mk [quoteChar]) =
      Except.error "[Error] expected a valid char on line 1" ∧
    Tokenizer.tokenize (String.mk [quoteChar, 'a']) =
      Except.error ("[Error] expected `" ++ quoteStr ++ "` on line 1") ∧
    Tokenizer.tokenize (String.mk [quoteChar, 'a', quoteChar]) =
      Except.ok [⟨TokenType.CHAR_LITERAL, 1, some "a"⟩] := by
  refine ⟨?_, ?_, ?_, ?_⟩ <;>
    simp +decide [Tokenizer.tokenize, tokenizeLoop, skipBlockComment, c_isalpha, c_isdigit,
      c_isalnum, c_isspace, quoteChar, quoteStr, lcurlyChar, rcurlyChar, Except.map]

/-- C7: an `IfPred` chain holds at most one `Else` link, and an `els` link
is structurally terminal (it has no successor field, mirroring
`Node::IfPredElse`); parsing `if (x) {} elif (y) {} else {}` yields an `If`
statement whose predicate chain is exactly one `Elif` link whose tail is
exactly one terminal `Else` link. -/
theorem if_elif_else_chain_shape :
    (∀ p : IfPred, p.elseCount ≤ 1) ∧
    Tokenizer.tokenize "if (x) \x7b\x7d elif (y) \x7b\x7d else \x7b\x7d" =
      Except.ok [⟨TokenType.IF, 1, none⟩, ⟨TokenType.LEFT_PARENTHESIS, 1, none⟩,
        ⟨TokenType.IDENTIFIER, 1, some "x"⟩, ⟨TokenType.RIGHT_PARENTHESIS, 1, none⟩,
        ⟨TokenType.LEFT_CURLY_BACKET, 1, none⟩, ⟨TokenType.RIGHT_CURLY_BRACKET, 1, none⟩,
        ⟨TokenType.ELIF, 1, none⟩, ⟨TokenType.LEFT_PARENTHESIS, 1, none⟩,
        ⟨TokenType.IDENTIFIER, 1, some "y"⟩, ⟨TokenType.RIGHT_PARENTHESIS, 1, none⟩,
        ⟨TokenType.LEFT_CURLY_BACKET, 1, none⟩, ⟨TokenType.RIGHT_CURLY_BRACKET, 1, none⟩,
        ⟨TokenType.ELSE, 1, none⟩, ⟨TokenType.LEFT_CURLY_BACKET, 1, none⟩,
        ⟨TokenType.RIGHT_CURLY_BRACKET, 1, none⟩] ∧
    Parser.parse [⟨TokenType.IF, 1, none⟩, ⟨TokenType.LEFT_PARENTHESIS, 1, none⟩,
        ⟨TokenType.IDENTIFIER, 1, some "x"⟩, ⟨TokenType.RIGHT_PARENTHESIS, 1, none⟩,
        ⟨TokenType.LEFT_CURLY_BACKET, 1, none⟩, ⟨TokenType.RIGHT_CURLY_BRACKET, 1, none⟩,
        ⟨TokenType.ELIF, 1, none⟩, ⟨TokenType.LEFT_PARENTHESIS, 1, none⟩,
        ⟨TokenType.IDENTIFIER, 1, some "y"⟩, ⟨TokenType.RIGHT_PARENTHESIS, 1, none⟩,
        ⟨TokenType.LEFT_CURLY_BACKET, 1, none⟩, ⟨TokenType.RIGHT_CURLY_BRACKET, 1, none⟩,
        ⟨TokenType.ELSE, 1, none⟩, ⟨TokenType.LEFT_CURLY_BACKET, 1, none⟩,
        ⟨TokenType.RIGHT_CURLY_BRACKET, 1, none⟩] =
      Except.ok ⟨[Stmt.stmtIf (StmtIf.mk
        (Expr.mk (ExprVar.term (Term.mk (TermVar.ident ⟨TokenType.IDENTIFIER, 1, some "x"⟩)
          VarType.NONE)) VarType.NONE)
        (Scope.mk [])
        (some (IfPred.elif
          (Expr.mk (ExprVar.term (Term.mk (TermVar.ident ⟨TokenType.IDENTIFIER, 1, some "y"⟩)
            VarType.NONE)) VarType.NONE)
          (Scope.mk [])
          (some (IfPred.els (Scope.mk []))))))]⟩ := by
  refine ⟨elseCount_le_one, ?_, ?_⟩
  · simp +decide [Tokenizer.tokenize, tokenizeLoop, skipBlockComment, c_isalpha, c_isdigit,
      c_isalnum, c_isspace, quoteChar, quoteStr, lcurlyChar, rcurlyChar, Except.map]
  · simp +decide [Parser.parse, Parser.parse_prog, Parser.parse_stmt, Parser.parse_scope,
      Parser.parse_stmt_list, Parser.parse_if_pred, Parser.parse_expr, Parser.parse_term,
      Parser.parse_expr_loop, Parser.try_consume_err, Parser.peek_type,
      Parser.wrong_operation_check, Parser.mk_bin_expr, bin_prec, to_variable_type, Expr.type,
      Expr.var, Term.type, VarType.to_string, TokenType.to_string, errLine, Except.map,
      Option.map]

/-- C8: a run of `parse_prog` succeeds with statement list `stmts` exactly
when `stmts` is the source-order sequence of statements produced by the
successive `parse_stmt` calls (`ProgRun`): each loop iteration contributes
exactly its statement, at its source position, so a program of N parsed
top-level statements yields a `Prog` whose list has length exactly N in
source order. -/
theorem parse_prog_iff_progRun :
    ∀ (ts : List Token) (last : Nat) (stmts : List Stmt),
      Parser.parse_prog ts last = Except.ok ⟨stmts⟩ ↔ Parser.ProgRun ts last stmts :=
  fun ts last stmts => Parser.parse_prog_progRun_bounded ts.length ts (le_refl _) last stmts

/-- C8 (witness): the equivalence applied to the concrete two-token program
`return 1`, whose run is the single statement `return 1`. -/
theorem parse_prog_iff_progRun_witness :
    Parser.ProgRun [⟨TokenType.RETURN, 1, none⟩, ⟨TokenType.INTEGER_LITERAL, 1, some "1"⟩] 0
      [Stmt.ret (Expr.mk (ExprVar.term
        (Term.mk (TermVar.intLit ⟨TokenType.INTEGER_LITERAL, 1, some "1"⟩) VarType.INT))
        VarType.INT)] :=
  (parse_prog_iff_progRun
      [⟨TokenType.RETURN, 1, none⟩, ⟨TokenType.INTEGER_LITERAL, 1, some "1"⟩] 0
      [Stmt.ret (Expr.mk (ExprVar.term
        (Term.mk (TermVar.intLit ⟨TokenType.INTEGER_LITERAL, 1, some "1"⟩) VarType.INT))
        VarType.INT)]).mp
    (by simp +decide [Parser.parse_prog, Parser.parse_stmt, Parser.parse_scope,
      Parser.parse_stmt_list, Parser.parse_if_pred, Parser.parse_expr, Parser.parse_term,
      Parser.parse_expr_loop, Parser.try_consume_err, Parser.peek_type,
      Parser.wrong_operation_check, Parser.mk_bin_expr, bin_prec, to_variable_type, Expr.type,
      Expr.var, Term.type, VarType.to_string, TokenType.to_string, errLine, Except.map,
      Option.map])

/-- C9: the type-mismatch fatal branch of `parse_expr` is unreachable: the
guard "both operand types concrete and unequal" is false for every pair of
`VarType`s (since `Int` is the only concrete type a term can carry), and
consequently no run of `parse_expr` ever produces the
`wrong operation : ...` diagnostic. -/
theorem wrong_operation_branch_unreachable :
    (∀ t1 t2 : VarType, Parser.wrong_operation_check t1 t2 = false) ∧
    (∀ (min_prec : Nat) (ts : List Token) (last : Nat),
      Parser.is_wrong_op_error (Parser.parse_expr min_prec ts last) = false) :=
  ⟨Parser.wrong_operation_check_false, fun m ts l => Parser.nw_expr m ts l⟩

/-- C10: parser progress — whenever `parse_stmt` (or `parse_term`) returns
a statement (term), the remaining token sequence is strictly shorter than
the input, so the `parse_prog` and `parse_scope` loops, which stop as soon
as `parse_stmt` reports "absent", never iterate without consuming input
(and the parse functions are total Lean functions, so parsing terminates on
every finite token sequence). -/
theorem parser_progress :
    ∀ (ts : List Token) (last : Nat),
      (∀ s r l, Parser.parse_stmt_run ts last = Except.ok (some (s, r, l)) →
        r.length < ts.length) ∧
      (∀ tm r l, Parser.parse_term_run ts last = Except.ok (some (tm, r, l)) →
        r.length < ts.length) :=
  fun ts last =>
    ⟨fun s r l h => Parser.parse_stmt_run_lt ts last s r l h,
     fun tm r l h => Parser.parse_term_run_lt ts last tm r l h⟩

/-- C10 (witness): progress applied to the concrete statement `return 1`,
which consumes both of its tokens. -/
theorem parser_progress_witness :
    ([] : List Token).length <
      ([⟨TokenType.RETURN, 1, none⟩, ⟨TokenType.INTEGER_LITERAL, 1, some "1"⟩] :
        List Token).length :=
  (parser_progress [⟨TokenType.RETURN, 1, none⟩, ⟨TokenType.INTEGER_LITERAL, 1, some "1"⟩] 0).1
    (Stmt.ret (Expr.mk (ExprVar.term
      (Term.mk (TermVar.intLit ⟨TokenType.INTEGER_LITERAL, 1, some "1"⟩) VarType.INT))
      VarType.INT)) [] 1
    (by simp +decide [Parser.parse_stmt_run, Parser.parse_stmt, Parser.parse_scope,
      Parser.parse_stmt_list, Parser.parse_if_pred, Parser.parse_expr, Parser.parse_term,
      Parser.parse_expr_loop, Parser.try_consume_err, Parser.peek_type,
      Parser.wrong_operation_check, Parser.mk_bin_expr, bin_prec, to_variable_type, Expr.type,
      Expr.var, Term.type, VarType.to_string, TokenType.to_string, errLine, Except.map,
      Option.map])
